import Mathlib

/-!
Shallow embedding of the cart discount allocation engine of
`src/extensions/conditional-discount-function/src/run.js` (the `run`
function), together with theorems checking the natural-language
specification against it.

Modelling conventions:
* JSON string fields that can be `null` (or another falsy value) are
  `Option String`; `none` models a falsy value.
* The parsed configuration is represented after the destructuring with
  defaults of `run.js` lines 40-53: a field absent from the JSON blob
  takes the default recorded on the corresponding structure field below.
* Money amounts are integers (the engine only compares and orders them;
  `parseFloat` string parsing is abstracted away).
* The development has two layers.  `Config`/`run` model the fragment of
  the engine on which it is total: the parsed configuration is a JSON
  object and its new-mode id fields are arrays; an absent or
  unparseable metafield value (lines 26-38 of `run.js`) is modelled as
  `config = none` in `RunInput`.  The source is NOT total outside this
  fragment: the `try` block spans only `JSON.parse` (lines 32-38), so a
  metafield value that parses to JSON `null` reaches the destructuring
  at line 40 and throws, and the new-mode targeting tests dereference
  `requiredTargetIds.length` / `discountedTargetIds.length` (lines 97,
  99, 124, 126) without optional chaining, so an explicit JSON `null`
  id array throws.  `ConfigRaw`/`ParsedConfig`/`runRaw` model the full
  input space with `none` standing for a thrown `TypeError`, and
  `runRaw_parsed_eq_run` proves the two layers agree on the shared
  fragment.
-/

namespace ConditionalDiscount

/-- JS truthiness of a nullable string: `null` and `""` are falsy. -/
def truthyStr : Option String → Bool
  | none => false
  | some s => !(s == "")

/-- The configuration after `JSON.parse` and the destructuring with
defaults of `run.js` lines 40-53.  A field that is absent from the JSON
object takes the default value given here, exactly as the destructuring
defaults do; `targetType` and `targetIds` have no destructuring default
(an absent field is `undefined`, modelled `none`). -/
structure Config where
  minProducts : Nat := 1
  maxDiscounted : Option Nat := none
  discountType : String := "percentage"
  discountValue : Int := 0
  requiredTargetType : Option String := some "all"
  requiredTargetIds : List String := []
  discountedTargetType : Option String := some "all"
  discountedTargetIds : List String := []
  targetType : Option String := none
  targetIds : Option (List String) := none
deriving DecidableEq

/-- One cart line of the input (`input.cart.lines`):
`isProductVariant` models `merchandise.__typename === "ProductVariant"`,
`productId` models `merchandise.product?.id` (with `none` for an absent
product object or id), `price` the parsed
`cost.amountPerQuantity.amount`, `quantity` the line quantity. -/
structure CartLine where
  id : String
  isProductVariant : Bool
  productId : Option String
  price : Int
  quantity : Nat
deriving DecidableEq

/-- The two `continue` guards of the cart loop (`run.js` lines 71-76):
a line yields a product id only when its merchandise is a
`ProductVariant` and the product id is truthy (present and non-empty). -/
def lineProductId (line : CartLine) : Option String :=
  if line.isProductVariant then
    match line.productId with
    | none => none
    | some pid => if pid == "" then none else some pid
  else none

/-- The legacy targeting test of `run.js` lines 86-92 and 113-118:
`targetType === "all"`, or `targetType === "product" | "collection"`
with a non-empty `targetIds` array containing the product id
(`targetIds?.length > 0` is false when `targetIds` is absent). -/
def legacyTargetMatch (tt : Option String) (tids : Option (List String))
    (pid : String) : Bool :=
  if tt == some "all" then true
  else if tt == some "product" then
    match tids with
    | some l => if l.length > 0 then l.contains pid else false
    | none => false
  else if tt == some "collection" then
    match tids with
    | some l => if l.length > 0 then l.contains pid else false
    | none => false
  else false

/-- The new-mode targeting test of `run.js` lines 95-101 and 122-128,
for a target type and id list destructured with defaults. -/
def selectorMatch (tt : Option String) (tids : List String)
    (pid : String) : Bool :=
  if tt == some "all" then true
  else if tt == some "product" then
    if tids.length > 0 then tids.contains pid else false
  else if tt == some "collection" then
    if tids.length > 0 then tids.contains pid else false
  else false

/-- `isRequired` classification of `run.js` lines 82-102: the legacy
branch is taken only when `targetType` is truthy AND
`requiredTargetType` is falsy; otherwise the new-mode selector runs. -/
def isRequired (cfg : Config) (pid : String) : Bool :=
  if truthyStr cfg.targetType && !truthyStr cfg.requiredTargetType then
    legacyTargetMatch cfg.targetType cfg.targetIds pid
  else
    selectorMatch cfg.requiredTargetType cfg.requiredTargetIds pid

/-- `isDiscountable` classification of `run.js` lines 109-129, with the
same legacy guard shape (`targetType && !discountedTargetType`). -/
def isDiscountable (cfg : Config) (pid : String) : Bool :=
  if truthyStr cfg.targetType && !truthyStr cfg.discountedTargetType then
    legacyTargetMatch cfg.targetType cfg.targetIds pid
  else
    selectorMatch cfg.discountedTargetType cfg.discountedTargetIds pid

/-- `requiredProductCount` accumulation of `run.js` lines 67, 104-106:
quantities of the lines whose product passes `isRequired`, skipping the
lines the loop `continue`s over. -/
def requiredProductCount (cfg : Config) (lines : List CartLine) : Nat :=
  lines.foldl
    (fun acc line =>
      match lineProductId line with
      | none => acc
      | some pid => if isRequired cfg pid then acc + line.quantity else acc)
    0

/-- One entry of the `discountableItems` array (`run.js` lines 133-139):
a cart line of quantity `q` whose product is discountable contributes
`q` unit items sharing the line id and unit price. -/
structure DiscountableItem where
  cartLineId : String
  productId : String
  price : Int
deriving DecidableEq

/-- The `discountableItems` array built by the cart loop (`run.js`
lines 68, 131-140): unit expansion of every discountable line. -/
def discountableItems (cfg : Config) (lines : List CartLine) :
    List DiscountableItem :=
  lines.foldl
    (fun acc line =>
      match lineProductId line with
      | none => acc
      | some pid =>
        if isDiscountable cfg pid then
          acc ++ List.replicate line.quantity ⟨line.id, pid, line.price⟩
        else acc)
    []

/-- The comparator of `run.js` line 159 (`a.price - b.price`,
ascending). -/
def priceLE (a b : DiscountableItem) : Prop := a.price ≤ b.price

instance : DecidableRel priceLE :=
  fun a b => inferInstanceAs (Decidable (a.price ≤ b.price))

instance : IsTotal DiscountableItem priceLE :=
  ⟨fun a b => Int.le_total a.price b.price⟩

instance : IsTrans DiscountableItem priceLE :=
  ⟨fun _ _ _ => Int.le_trans⟩

/-- The in-place stable ascending sort of `run.js` line 159, modelled
by stable insertion sort on the same comparator. -/
def sortedItems (cfg : Config) (lines : List CartLine) :
    List DiscountableItem :=
  List.insertionSort priceLE (discountableItems cfg lines)

/-- `itemsToDiscount` of `run.js` lines 162-164: the cap is applied
through JS truthiness, so both a `null`/absent and a `0` value of
`maxDiscounted` mean "no cap". -/
def itemsToDiscountCount (maxDiscounted : Option Nat) (numItems : Nat) :
    Nat :=
  match maxDiscounted with
  | none => numItems
  | some k => if k = 0 then numItems else min numItems k

/-- The `discountedItems` slice of `run.js` line 167: the first
`itemsToDiscount` entries of the sorted array. -/
def chosenItems (cfg : Config) (lines : List CartLine) :
    List DiscountableItem :=
  (sortedItems cfg lines).take
    (itemsToDiscountCount cfg.maxDiscounted (sortedItems cfg lines).length)

/-- One `cartLine` target of the output (`run.js` lines 191-196). -/
structure CartLineTarget where
  id : String
  quantity : Nat
deriving DecidableEq

/-- One step of the grouping of `run.js` lines 178-188: JS object keys
keep first-insertion order, so an existing line id is incremented in
place and a new line id is appended at the end. -/
def addItemToGroups (groups : List CartLineTarget) (lineId : String) :
    List CartLineTarget :=
  match groups with
  | [] => [⟨lineId, 1⟩]
  | g :: gs =>
    if g.id == lineId then ⟨g.id, g.quantity + 1⟩ :: gs
    else g :: addItemToGroups gs lineId

/-- The grouping of discounted items by cart line id (`run.js`
lines 177-196), producing the `targets` array. -/
def groupByLine (items : List DiscountableItem) : List CartLineTarget :=
  items.foldl (fun acc it => addItemToGroups acc it.cartLineId) []

/-- The discount value of `run.js` lines 199-201 (the number-to-string
conversion is abstracted away). -/
inductive DiscountValue where
  | percentage (value : Int)
  | fixedAmount (amount : Int)
deriving DecidableEq

/-- `resolvedValue` per `run.js` lines 199-201: `percentage` exactly
when `discountType === "percentage"`, else `fixedAmount`. -/
def resolvedValue (cfg : Config) : DiscountValue :=
  if cfg.discountType == "percentage" then
    DiscountValue.percentage cfg.discountValue
  else DiscountValue.fixedAmount cfg.discountValue

/-- One discount of the output (`run.js` lines 206-210). -/
structure Discount where
  message : String
  targets : List CartLineTarget
  value : DiscountValue
deriving DecidableEq

/-- `discountApplicationStrategy` — the engine always uses `First`. -/
inductive DiscountApplicationStrategy where
  | first
deriving DecidableEq

/-- `FunctionRunResult` (`run.js` lines 10-15, 203-212). -/
structure FunctionRunResult where
  discountApplicationStrategy : DiscountApplicationStrategy
  discounts : List Discount
deriving DecidableEq

/-- `EMPTY_DISCOUNT` of `run.js` lines 12-15. -/
def EMPTY_DISCOUNT : FunctionRunResult :=
  ⟨DiscountApplicationStrategy.first, []⟩

/-- The input of `run`: `config = none` models an absent or empty
metafield value as well as a `JSON.parse` failure (`run.js`
lines 23-38, both early-return `EMPTY_DISCOUNT`). -/
structure RunInput where
  config : Option Config
  cartLines : List CartLine
deriving DecidableEq

/-- The body of `run` after a configuration was parsed: the early
returns of `run.js` lines 62-64, 147-150, 153-156 and 172-175 as
nested conditionals, then the result assembly of lines 177-212. -/
def runWithConfig (cfg : Config) (lines : List CartLine) :
    FunctionRunResult :=
  if lines.length = 0 then EMPTY_DISCOUNT
  else if requiredProductCount cfg lines < cfg.minProducts then
    EMPTY_DISCOUNT
  else if (discountableItems cfg lines).length = 0 then EMPTY_DISCOUNT
  else if (chosenItems cfg lines).length = 0 then EMPTY_DISCOUNT
  else
    ⟨DiscountApplicationStrategy.first,
      [⟨"Conditional Discount Applied", groupByLine (chosenItems cfg lines),
        resolvedValue cfg⟩]⟩

/-- The exported `run` of `run.js` lines 21-217. -/
def run (input : RunInput) : FunctionRunResult :=
  match input.config with
  | none => EMPTY_DISCOUNT
  | some cfg => runWithConfig cfg input.cartLines

/-- Total quantity across every target of every discount of a result. -/
def totalDiscountedQuantity (r : FunctionRunResult) : Nat :=
  (r.discounts.map fun d => (d.targets.map (·.quantity)).sum).sum

/-- Quantity a list of targets assigns to one line id (sum over the
entries carrying that id). -/
def targetsLineQty : List CartLineTarget → String → Nat
  | [], _ => 0
  | t :: ts, lid =>
    (if t.id == lid then t.quantity else 0) + targetsLineQty ts lid

/-- Quantity a whole result assigns to one line id. -/
def lineDiscountedQty (r : FunctionRunResult) (lid : String) : Nat :=
  (r.discounts.map fun d => targetsLineQty d.targets lid).sum

/-! ### The raw engine, with its exception paths

The definitions above model the fragment of `run.js` where the parsed
configuration is an object and its new-mode id fields are arrays.  The
definitions below model the remaining inputs, on which the source can
throw: `none` in an `Option` result stands for a thrown `TypeError`
escaping `run`. -/

/-- The configuration after the destructuring of `run.js` lines 40-53,
keeping the new-mode id fields nullable: destructuring defaults apply
only to an absent (`undefined`) field, not to an explicit JSON `null`,
so `requiredTargetIds`/`discountedTargetIds` can still be `null`
(modelled `none`) when the blob sets them so. -/
structure ConfigRaw where
  minProducts : Nat := 1
  maxDiscounted : Option Nat := none
  discountType : String := "percentage"
  discountValue : Int := 0
  requiredTargetType : Option String := some "all"
  requiredTargetIds : Option (List String) := some []
  discountedTargetType : Option String := some "all"
  discountedTargetIds : Option (List String) := some []
  targetType : Option String := none
  targetIds : Option (List String) := none
deriving DecidableEq

/-- The outcome of reading and parsing the metafield value (`run.js`
lines 23-40): a falsy value (`absent`) and a `JSON.parse` failure
(`unparseable`) return early inside the engine; a value parsing to
JSON `null` (`parsedNull`) passes the truthiness check and the `try`
block but then crashes the line-40 destructuring, which sits outside
the `try`; otherwise an object was parsed. -/
inductive ParsedConfig where
  | absent
  | unparseable
  | parsedNull
  | parsed (cfg : ConfigRaw)
deriving DecidableEq

/-- The new-mode targeting test of `run.js` lines 95-101 / 122-128 over
a possibly-`null` id array: the `product` and `collection` branches
evaluate `ids.length` without optional chaining, so a `null` array
throws (`none`); the other branches never dereference the array. -/
def selectorMatchRaw (tt : Option String) (tids : Option (List String))
    (pid : String) : Option Bool :=
  if tt == some "all" then some true
  else if tt == some "product" then
    match tids with
    | none => none
    | some l => some (if l.length > 0 then l.contains pid else false)
  else if tt == some "collection" then
    match tids with
    | none => none
    | some l => some (if l.length > 0 then l.contains pid else false)
  else some false

/-- `isRequired` over the raw configuration (`run.js` lines 82-102):
the legacy branch is `null`-safe (`targetIds?.length`), the new-mode
branch is not. -/
def isRequiredRaw (cfg : ConfigRaw) (pid : String) : Option Bool :=
  if truthyStr cfg.targetType && !truthyStr cfg.requiredTargetType then
    some (legacyTargetMatch cfg.targetType cfg.targetIds pid)
  else
    selectorMatchRaw cfg.requiredTargetType cfg.requiredTargetIds pid

/-- `isDiscountable` over the raw configuration (`run.js`
lines 109-129), with the same shape. -/
def isDiscountableRaw (cfg : ConfigRaw) (pid : String) : Option Bool :=
  if truthyStr cfg.targetType && !truthyStr cfg.discountedTargetType then
    some (legacyTargetMatch cfg.targetType cfg.targetIds pid)
  else
    selectorMatchRaw cfg.discountedTargetType cfg.discountedTargetIds pid

/-- The cart loop of `run.js` lines 70-141 over the raw configuration:
one pass computing the required count and the discountable items, in
source order (required test before discountable test per line),
aborting the whole evaluation at the first thrown dereference. -/
def classifyLinesRaw (cfg : ConfigRaw) (lines : List CartLine) :
    Option (Nat × List DiscountableItem) :=
  lines.foldl
    (fun st line =>
      match st with
      | none => none
      | some (req, items) =>
        match lineProductId line with
        | none => some (req, items)
        | some pid =>
          match isRequiredRaw cfg pid with
          | none => none
          | some isReq =>
            match isDiscountableRaw cfg pid with
            | none => none
            | some isDisc =>
              some
                ((if isReq then req + line.quantity else req),
                 (if isDisc then
                    items ++
                      List.replicate line.quantity
                        ⟨line.id, pid, line.price⟩
                  else items)))
    (some (0, []))

/-- The exported `run` over the full input space: `none` models a
`TypeError` escaping the engine (the line-40 destructuring of a parsed
`null`, or a `null` id array dereferenced by the cart loop); `some r`
models a normal return. -/
def runRaw (pc : ParsedConfig) (lines : List CartLine) :
    Option FunctionRunResult :=
  match pc with
  | ParsedConfig.absent => some EMPTY_DISCOUNT
  | ParsedConfig.unparseable => some EMPTY_DISCOUNT
  | ParsedConfig.parsedNull => none
  | ParsedConfig.parsed cfg =>
    if lines.length = 0 then some EMPTY_DISCOUNT
    else
      match classifyLinesRaw cfg lines with
      | none => none
      | some (requiredCount, items) =>
        if requiredCount < cfg.minProducts then some EMPTY_DISCOUNT
        else if items.length = 0 then some EMPTY_DISCOUNT
        else
          if (List.take (itemsToDiscountCount cfg.maxDiscounted
              (List.insertionSort priceLE items).length)
              (List.insertionSort priceLE items)).length = 0 then
            some EMPTY_DISCOUNT
          else
            some ⟨DiscountApplicationStrategy.first,
              [⟨"Conditional Discount Applied",
                groupByLine (List.take (itemsToDiscountCount cfg.maxDiscounted
                  (List.insertionSort priceLE items).length)
                  (List.insertionSort priceLE items)),
                if cfg.discountType == "percentage" then
                  DiscountValue.percentage cfg.discountValue
                else DiscountValue.fixedAmount cfg.discountValue⟩]⟩

/-- The total configuration corresponding to a raw configuration whose
new-mode id fields are real arrays. -/
def configOfRaw (cfg : ConfigRaw) (rids dids : List String) : Config :=
  { minProducts := cfg.minProducts, maxDiscounted := cfg.maxDiscounted,
    discountType := cfg.discountType, discountValue := cfg.discountValue,
    requiredTargetType := cfg.requiredTargetType,
    requiredTargetIds := rids,
    discountedTargetType := cfg.discountedTargetType,
    discountedTargetIds := dids,
    targetType := cfg.targetType, targetIds := cfg.targetIds }

/-! ### Helper lemmas about the grouping stage -/

lemma addItemToGroups_quantity_sum (gs : List CartLineTarget) (lid : String) :
    ((addItemToGroups gs lid).map (·.quantity)).sum =
      ((gs.map (·.quantity)).sum) + 1 := by
  induction gs with
  | nil => simp [addItemToGroups]
  | cons g gs ih =>
    by_cases h : g.id == lid
    · simp [addItemToGroups, h]
      omega
    · simp [addItemToGroups, h, ih]
      omega

lemma foldl_groups_quantity_sum (items : List DiscountableItem) :
    ∀ gs : List CartLineTarget,
      (((items.foldl (fun acc it => addItemToGroups acc it.cartLineId) gs)).map
        (·.quantity)).sum = (gs.map (·.quantity)).sum + items.length := by
  induction items with
  | nil => intro gs; simp
  | cons it items ih =>
    intro gs
    simp only [List.foldl_cons, ih, addItemToGroups_quantity_sum,
      List.length_cons]
    omega

lemma groupByLine_quantity_sum (items : List DiscountableItem) :
    ((groupByLine items).map (·.quantity)).sum = items.length := by
  unfold groupByLine
  simpa using foldl_groups_quantity_sum items []

lemma addItemToGroups_keys (gs : List CartLineTarget) (lid : String) :
    (addItemToGroups gs lid).map (·.id) =
      if lid ∈ gs.map (·.id) then gs.map (·.id)
      else gs.map (·.id) ++ [lid] := by
  induction gs with
  | nil => simp [addItemToGroups]
  | cons g gs ih =>
    by_cases h : g.id == lid
    · have hid : g.id = lid := by simpa using h
      simp [addItemToGroups, h, hid]
    · have hid : ¬ g.id = lid := by simpa using h
      have hne : ¬ lid = g.id := fun hx => hid hx.symm
      simp [addItemToGroups, h, ih, hne]
      split <;> simp

lemma nodup_keys_addItemToGroups (gs : List CartLineTarget) (lid : String)
    (h : (gs.map (·.id)).Nodup) :
    ((addItemToGroups gs lid).map (·.id)).Nodup := by
  rw [addItemToGroups_keys]
  split
  · exact h
  · next hmem =>
    simp [List.nodup_append, h, hmem]

lemma nodup_keys_foldl_groups (items : List DiscountableItem) :
    ∀ gs : List CartLineTarget, (gs.map (·.id)).Nodup →
      (((items.foldl (fun acc it => addItemToGroups acc it.cartLineId)
        gs)).map (·.id)).Nodup := by
  induction items with
  | nil => intro gs h; simpa using h
  | cons it items ih =>
    intro gs h
    simp only [List.foldl_cons]
    exact ih _ (nodup_keys_addItemToGroups gs it.cartLineId h)

lemma groupByLine_nodup_keys (items : List DiscountableItem) :
    ((groupByLine items).map (·.id)).Nodup := by
  unfold groupByLine
  exact nodup_keys_foldl_groups items [] (by simp)

lemma addItemToGroups_lineQty (gs : List CartLineTarget) (l0 lid : String) :
    targetsLineQty (addItemToGroups gs l0) lid =
      targetsLineQty gs lid + (if l0 == lid then 1 else 0) := by
  induction gs with
  | nil =>
    by_cases h : l0 == lid <;> simp [addItemToGroups, targetsLineQty, h]
  | cons g gs ih =>
    by_cases h : g.id == l0
    · have hid : g.id = l0 := by simpa using h
      by_cases h2 : l0 == lid <;>
        · simp [addItemToGroups, h, targetsLineQty, hid, h2]
          try omega
    · simp only [addItemToGroups, h, if_false, Bool.false_eq_true,
        targetsLineQty, ih]
      omega

lemma foldl_groups_lineQty (items : List DiscountableItem) :
    ∀ (gs : List CartLineTarget) (lid : String),
      targetsLineQty
        (items.foldl (fun acc it => addItemToGroups acc it.cartLineId) gs)
        lid =
      targetsLineQty gs lid +
        items.countP (fun it => it.cartLineId == lid) := by
  induction items with
  | nil => intro gs lid; simp
  | cons it items ih =>
    intro gs lid
    simp only [List.foldl_cons, ih, addItemToGroups_lineQty,
      List.countP_cons]
    by_cases h : it.cartLineId == lid <;>
      · simp [h]
        try omega

lemma groupByLine_lineQty (items : List DiscountableItem) (lid : String) :
    targetsLineQty (groupByLine items) lid =
      items.countP (fun it => it.cartLineId == lid) := by
  unfold groupByLine
  simpa [targetsLineQty] using foldl_groups_lineQty items [] lid

/-! ### Helper lemmas about the selection stage -/

lemma itemsToDiscountCount_le (m : Option Nat) (len : Nat) :
    itemsToDiscountCount m len ≤ len := by
  unfold itemsToDiscountCount
  cases m with
  | none => exact Nat.le_refl len
  | some k =>
    dsimp only
    split
    · exact Nat.le_refl len
    · exact Nat.min_le_left len k

lemma itemsToDiscountCount_pos (m : Option Nat) (len : Nat) (h : 0 < len) :
    0 < itemsToDiscountCount m len := by
  unfold itemsToDiscountCount
  cases m with
  | none => exact h
  | some k =>
    dsimp only
    split
    · exact h
    · next hk => exact lt_min h (Nat.pos_of_ne_zero hk)

lemma sortedItems_length (cfg : Config) (lines : List CartLine) :
    (sortedItems cfg lines).length = (discountableItems cfg lines).length :=
  List.length_insertionSort priceLE (discountableItems cfg lines)

lemma chosenItems_length (cfg : Config) (lines : List CartLine) :
    (chosenItems cfg lines).length =
      itemsToDiscountCount cfg.maxDiscounted
        (discountableItems cfg lines).length := by
  unfold chosenItems
  rw [List.length_take, sortedItems_length]
  exact Nat.min_eq_left (itemsToDiscountCount_le _ _)

lemma discountableItems_nil (cfg : Config) :
    discountableItems cfg [] = [] := rfl

/-- The engine result is `EMPTY_DISCOUNT` or the single assembled
discount — the four early returns versus the final result of `run.js`. -/
lemma runWithConfig_cases (cfg : Config) (lines : List CartLine) :
    runWithConfig cfg lines = EMPTY_DISCOUNT ∨
      runWithConfig cfg lines =
        ⟨DiscountApplicationStrategy.first,
          [⟨"Conditional Discount Applied",
            groupByLine (chosenItems cfg lines), resolvedValue cfg⟩]⟩ := by
  unfold runWithConfig
  split
  · exact Or.inl rfl
  split
  · exact Or.inl rfl
  split
  · exact Or.inl rfl
  split
  · exact Or.inl rfl
  · exact Or.inr rfl

/-- Once the threshold gate passes and the discountable set is
non-empty, the engine takes its final branch. -/
lemma runWithConfig_gate_passed (cfg : Config) (lines : List CartLine)
    (hgate : cfg.minProducts ≤ requiredProductCount cfg lines)
    (hne : discountableItems cfg lines ≠ []) :
    runWithConfig cfg lines =
      ⟨DiscountApplicationStrategy.first,
        [⟨"Conditional Discount Applied",
          groupByLine (chosenItems cfg lines), resolvedValue cfg⟩]⟩ := by
  have hlenpos : 0 < (discountableItems cfg lines).length :=
    List.length_pos.mpr hne
  have hlines : lines.length ≠ 0 := by
    intro h0
    rw [List.length_eq_zero.mp h0, discountableItems_nil] at hne
    exact hne rfl
  have hchosen : (chosenItems cfg lines).length ≠ 0 := by
    rw [chosenItems_length]
    exact Nat.pos_iff_ne_zero.mp (itemsToDiscountCount_pos _ _ hlenpos)
  unfold runWithConfig
  rw [if_neg hlines, if_neg (Nat.not_lt.mpr hgate),
    if_neg (Nat.pos_iff_ne_zero.mp hlenpos), if_neg hchosen]

/-- Total discounted quantity in the final branch: the number of chosen
unit items, which is `itemsToDiscountCount` applied to the discountable
set size. -/
lemma totalDiscountedQuantity_gate_passed (cfg : Config)
    (lines : List CartLine)
    (hgate : cfg.minProducts ≤ requiredProductCount cfg lines)
    (hne : discountableItems cfg lines ≠ []) :
    totalDiscountedQuantity (runWithConfig cfg lines) =
      itemsToDiscountCount cfg.maxDiscounted
        (discountableItems cfg lines).length := by
  rw [runWithConfig_gate_passed cfg lines hgate hne]
  unfold totalDiscountedQuantity
  simp [groupByLine_quantity_sum, chosenItems_length]

/-! ### Helper lemmas about classification -/

/-- An explicit `product` or `collection` discounted selector with an
empty id list classifies no unit as discountable: the legacy guard is
off (the discounted target type is truthy) and the new-mode branch
requires a non-empty id list. -/
lemma isDiscountable_explicit_empty (cfg : Config) (pid : String)
    (ht : cfg.discountedTargetType = some "product" ∨
      cfg.discountedTargetType = some "collection")
    (hids : cfg.discountedTargetIds = []) :
    isDiscountable cfg pid = false := by
  have htr : truthyStr cfg.discountedTargetType = true := by
    rcases ht with h | h <;> simp [h, truthyStr]
  unfold isDiscountable
  rw [htr]
  simp only [Bool.not_true, Bool.and_false, Bool.false_eq_true, if_false]
  rcases ht with h | h <;> simp [selectorMatch, h, hids]

/-- If no unit is discountable, the discountable item list is empty. -/
lemma discountableItems_eq_nil (cfg : Config) (lines : List CartLine)
    (h : ∀ pid, isDiscountable cfg pid = false) :
    discountableItems cfg lines = [] := by
  unfold discountableItems
  suffices hgen : ∀ acc : List DiscountableItem,
      lines.foldl
        (fun acc line =>
          match lineProductId line with
          | none => acc
          | some pid =>
            if isDiscountable cfg pid then
              acc ++ List.replicate line.quantity ⟨line.id, pid, line.price⟩
            else acc)
        acc = acc from hgen []
  induction lines with
  | nil => intro acc; rfl
  | cons line lines ih =>
    intro acc
    rw [List.foldl_cons]
    cases hpid : lineProductId line with
    | none => simpa using ih acc
    | some pid =>
      simp only [hpid, h pid, Bool.false_eq_true, if_false]
      exact ih acc

/-- A line the cart loop skips contributes nothing to the required
count. -/
lemma requiredProductCount_skip (cfg : Config) (pre post : List CartLine)
    (bad : CartLine) (hbad : lineProductId bad = none) :
    requiredProductCount cfg (pre ++ bad :: post) =
      requiredProductCount cfg (pre ++ post) := by
  unfold requiredProductCount
  rw [List.foldl_append, List.foldl_append, List.foldl_cons, hbad]

/-- A line the cart loop skips contributes nothing to the discountable
items. -/
lemma discountableItems_skip (cfg : Config) (pre post : List CartLine)
    (bad : CartLine) (hbad : lineProductId bad = none) :
    discountableItems cfg (pre ++ bad :: post) =
      discountableItems cfg (pre ++ post) := by
  unfold discountableItems
  rw [List.foldl_append, List.foldl_append, List.foldl_cons, hbad]

/-- With a parsed configuration, `run` is `runWithConfig` on the cart
lines. -/
lemma run_config_some (input : RunInput) (cfg : Config)
    (hc : input.config = some cfg) :
    run input = runWithConfig cfg input.cartLines := by
  unfold run
  rw [hc]

/-- An empty discountable item list short-circuits to
`EMPTY_DISCOUNT` (`run.js` lines 153-156). -/
lemma runWithConfig_items_nil (cfg : Config) (lines : List CartLine)
    (h : discountableItems cfg lines = []) :
    runWithConfig cfg lines = EMPTY_DISCOUNT := by
  unfold runWithConfig
  by_cases h1 : lines.length = 0
  · rw [if_pos h1]
  · rw [if_neg h1]
    by_cases h2 : requiredProductCount cfg lines < cfg.minProducts
    · rw [if_pos h2]
    · rw [if_neg h2, if_pos (by simp [h])]

/-! ### The raw engine agrees with `run` on the non-throwing fragment -/

/-- On a real (non-`null`) id array the raw selector test never throws
and computes the total selector test. -/
lemma selectorMatchRaw_some (tt : Option String) (l : List String)
    (pid : String) :
    selectorMatchRaw tt (some l) pid = some (selectorMatch tt l pid) := by
  by_cases h1 : tt == some "all"
  · simp [selectorMatchRaw, selectorMatch, h1]
  · by_cases h2 : tt == some "product"
    · simp [selectorMatchRaw, selectorMatch, h1, h2]
    · by_cases h3 : tt == some "collection"
      · simp [selectorMatchRaw, selectorMatch, h1, h2, h3]
      · simp [selectorMatchRaw, selectorMatch, h1, h2, h3]

lemma isRequiredRaw_configOfRaw (cfg : ConfigRaw) (rids dids : List String)
    (hr : cfg.requiredTargetIds = some rids) (pid : String) :
    isRequiredRaw cfg pid =
      some (isRequired (configOfRaw cfg rids dids) pid) := by
  unfold isRequiredRaw isRequired configOfRaw
  by_cases hg : (truthyStr cfg.targetType &&
      !truthyStr cfg.requiredTargetType) = true
  · simp [hg]
  · simp only [Bool.not_eq_true] at hg
    simp [hg, hr, selectorMatchRaw_some]

lemma isDiscountableRaw_configOfRaw (cfg : ConfigRaw)
    (rids dids : List String)
    (hd : cfg.discountedTargetIds = some dids) (pid : String) :
    isDiscountableRaw cfg pid =
      some (isDiscountable (configOfRaw cfg rids dids) pid) := by
  unfold isDiscountableRaw isDiscountable configOfRaw
  by_cases hg : (truthyStr cfg.targetType &&
      !truthyStr cfg.discountedTargetType) = true
  · simp [hg]
  · simp only [Bool.not_eq_true] at hg
    simp [hg, hd, selectorMatchRaw_some]

/-- The combined raw cart loop, started from any accumulator, never
throws on a configuration with real id arrays and computes the two
folds of `requiredProductCount` and `discountableItems` started from
the same accumulators. -/
lemma classifyLinesRaw_foldl (cfg : ConfigRaw) (rids dids : List String)
    (hr : cfg.requiredTargetIds = some rids)
    (hd : cfg.discountedTargetIds = some dids) :
    ∀ (lines : List CartLine) (r : Nat) (its : List DiscountableItem),
      lines.foldl
        (fun st line =>
          match st with
          | none => none
          | some (req, items) =>
            match lineProductId line with
            | none => some (req, items)
            | some pid =>
              match isRequiredRaw cfg pid with
              | none => none
              | some isReq =>
                match isDiscountableRaw cfg pid with
                | none => none
                | some isDisc =>
                  some
                    ((if isReq then req + line.quantity else req),
                     (if isDisc then
                        items ++
                          List.replicate line.quantity
                            ⟨line.id, pid, line.price⟩
                      else items)))
        (some (r, its)) =
      some
        (lines.foldl
          (fun acc line =>
            match lineProductId line with
            | none => acc
            | some pid =>
              if isRequired (configOfRaw cfg rids dids) pid then
                acc + line.quantity
              else acc)
          r,
         lines.foldl
          (fun acc line =>
            match lineProductId line with
            | none => acc
            | some pid =>
              if isDiscountable (configOfRaw cfg rids dids) pid then
                acc ++ List.replicate line.quantity ⟨line.id, pid, line.price⟩
              else acc)
          its) := by
  intro lines
  induction lines with
  | nil => intro r its; rfl
  | cons line lines ih =>
    intro r its
    rw [List.foldl_cons, List.foldl_cons, List.foldl_cons]
    cases h : lineProductId line with
    | none =>
      simp only [h]
      exact ih r its
    | some pid =>
      simp only [h, isRequiredRaw_configOfRaw cfg rids dids hr pid,
        isDiscountableRaw_configOfRaw cfg rids dids hd pid]
      exact ih _ _

lemma classifyLinesRaw_eq (cfg : ConfigRaw) (rids dids : List String)
    (hr : cfg.requiredTargetIds = some rids)
    (hd : cfg.discountedTargetIds = some dids) (lines : List CartLine) :
    classifyLinesRaw cfg lines =
      some (requiredProductCount (configOfRaw cfg rids dids) lines,
        discountableItems (configOfRaw cfg rids dids) lines) := by
  unfold classifyLinesRaw requiredProductCount discountableItems
  exact classifyLinesRaw_foldl cfg rids dids hr hd lines 0 []

/-- Refinement: on every configuration whose new-mode id fields are
real arrays, the raw engine never throws and returns exactly what the
total embedding `run` computes — the two layers of the development
describe the same engine. -/
lemma runRaw_parsed_eq_run (cfg : ConfigRaw) (rids dids : List String)
    (hr : cfg.requiredTargetIds = some rids)
    (hd : cfg.discountedTargetIds = some dids) (lines : List CartLine) :
    runRaw (ParsedConfig.parsed cfg) lines =
      some (run ⟨some (configOfRaw cfg rids dids), lines⟩) := by
  show runRaw (ParsedConfig.parsed cfg) lines =
    some (runWithConfig (configOfRaw cfg rids dids) lines)
  unfold runRaw runWithConfig chosenItems sortedItems resolvedValue
  dsimp only
  rw [classifyLinesRaw_eq cfg rids dids hr hd lines]
  dsimp only [configOfRaw]
  simp only [apply_ite Option.some]

/-! ### Concrete configurations and carts used by the claim theorems -/

/-- Co-targeted configuration: both selectors default to `all`,
threshold 2, no cap. -/
def cfgCoTargeted : Config := { minProducts := 2 }

/-- Cart of five single-quantity lines priced 5, 5, 10, 20, 30. -/
def cartFivePrices : List CartLine :=
  [⟨"L1", true, some "P", 5, 1⟩, ⟨"L2", true, some "P", 5, 1⟩,
   ⟨"L3", true, some "P", 10, 1⟩, ⟨"L4", true, some "P", 20, 1⟩,
   ⟨"L5", true, some "P", 30, 1⟩]

/-- A configuration that supplies only the legacy `targetType` and
`targetIds` fields; the new-mode targeting fields are absent from the
JSON, so the destructuring defaults of `run.js` lines 46-49 apply. -/
def cfgLegacyOnly : Config :=
  { minProducts := 1, targetType := some "product",
    targetIds := some ["gid_X"] }

/-- A cart containing only product `gid_Y`, which the legacy selector
of `cfgLegacyOnly` does not target. -/
def cartOtherProduct : List CartLine := [⟨"LY", true, some "gid_Y", 10, 1⟩]

/-- Required selector targets product `gid_X` with a non-empty id set;
discounted selector is an explicit `product` selector with an empty id
set. -/
def cfgMirror : Config :=
  { minProducts := 1,
    requiredTargetType := some "product", requiredTargetIds := ["gid_X"],
    discountedTargetType := some "product", discountedTargetIds := [] }

/-- A cart containing only product `gid_X`. -/
def cartProductX : List CartLine := [⟨"LX", true, some "gid_X", 10, 1⟩]

/-- Disjoint selectors: required targets product `gid_A`, discounted
targets product `gid_B`, threshold 6, no cap. -/
def cfgDisjoint : Config :=
  { minProducts := 6,
    requiredTargetType := some "product", requiredTargetIds := ["gid_A"],
    discountedTargetType := some "product", discountedTargetIds := ["gid_B"] }

/-- Cart with 6 units of product `gid_A` and 3 units of product
`gid_B` priced 8 each. -/
def cartDisjoint : List CartLine :=
  [⟨"LA", true, some "gid_A", 3, 6⟩, ⟨"LB", true, some "gid_B", 8, 3⟩]

/-! ### Claim theorems -/

/-- Claim C1, counterexample: the claim says that in the co-targeted
case with unit prices `[5, 5, 10, 20, 30]` and `minRequiredQuantity =
2`, the two units priced 5 are never discounted.  The code applies no
exemption: it discounts both units priced 5 (lines `L1` and `L2` each
receive a discounted quantity of 1). -/
theorem cotargeted_units_priced_five_are_discounted :
    lineDiscountedQty (run ⟨some cfgCoTargeted, cartFivePrices⟩) "L1" = 1 ∧
    lineDiscountedQty (run ⟨some cfgCoTargeted, cartFivePrices⟩) "L2" = 1 := by
  decide

/-- Claim C1, amended: in the co-targeted case (required and discounted
classification agree on every product), once the threshold gate passes
no units are exempt: the total discounted quantity is the whole
discountable set clamped only by the cap, and the discounted units are
the cheapest ones (every chosen unit's price is at most every dropped
unit's price). -/
theorem cotargeted_no_units_exempt (input : RunInput) (cfg : Config)
    (hc : input.config = some cfg)
    (_hco : ∀ pid, isRequired cfg pid = isDiscountable cfg pid)
    (hgate : cfg.minProducts ≤ requiredProductCount cfg input.cartLines)
    (hne : discountableItems cfg input.cartLines ≠ []) :
    totalDiscountedQuantity (run input) =
      itemsToDiscountCount cfg.maxDiscounted
        (discountableItems cfg input.cartLines).length ∧
    ∀ a ∈ chosenItems cfg input.cartLines,
      ∀ b ∈ (sortedItems cfg input.cartLines).drop
        (itemsToDiscountCount cfg.maxDiscounted
          (sortedItems cfg input.cartLines).length),
        a.price ≤ b.price := by
  constructor
  · rw [run_config_some input cfg hc]
    exact totalDiscountedQuantity_gate_passed cfg input.cartLines hgate hne
  · intro a ha b hb
    have hs : List.Sorted priceLE (sortedItems cfg input.cartLines) :=
      List.sorted_insertionSort priceLE _
    have hpw : List.Pairwise priceLE
        ((sortedItems cfg input.cartLines).take
            (itemsToDiscountCount cfg.maxDiscounted
              (sortedItems cfg input.cartLines).length) ++
          (sortedItems cfg input.cartLines).drop
            (itemsToDiscountCount cfg.maxDiscounted
              (sortedItems cfg input.cartLines).length)) := by
      rw [List.take_append_drop]
      exact hs
    exact (List.pairwise_append.mp hpw).2.2 a ha b hb

/-- Claim C1, witness for the amended theorem at the spec's own
scenario: prices `[5, 5, 10, 20, 30]`, threshold 2, co-targeted. -/
theorem cotargeted_no_units_exempt_witness :
    totalDiscountedQuantity (run ⟨some cfgCoTargeted, cartFivePrices⟩) =
      itemsToDiscountCount cfgCoTargeted.maxDiscounted
        (discountableItems cfgCoTargeted cartFivePrices).length ∧
    ∀ a ∈ chosenItems cfgCoTargeted cartFivePrices,
      ∀ b ∈ (sortedItems cfgCoTargeted cartFivePrices).drop
        (itemsToDiscountCount cfgCoTargeted.maxDiscounted
          (sortedItems cfgCoTargeted cartFivePrices).length),
        a.price ≤ b.price :=
  cotargeted_no_units_exempt ⟨some cfgCoTargeted, cartFivePrices⟩
    cfgCoTargeted rfl (fun _ => rfl) (by decide) (by decide)

/-- Claim C2 (code bug): a configuration supplying only the legacy
`targetType = "product"`, `targetIds = ["gid_X"]` pair should make only
product `gid_X` required and discountable, but the destructuring
default `requiredTargetType = "all"` (`run.js` line 46) makes the
legacy guard `targetType && !requiredTargetType` (line 84) false, so
the engine classifies every product — here `gid_Y`, which the legacy
selector itself rejects — as required and discountable and discounts
it. -/
theorem legacy_config_treated_as_all_products :
    legacyTargetMatch cfgLegacyOnly.targetType cfgLegacyOnly.targetIds
      "gid_Y" = false ∧
    isRequired cfgLegacyOnly "gid_Y" = true ∧
    isDiscountable cfgLegacyOnly "gid_Y" = true ∧
    run ⟨some cfgLegacyOnly, cartOtherProduct⟩ =
      ⟨DiscountApplicationStrategy.first,
        [⟨"Conditional Discount Applied", [⟨"LY", 1⟩],
          DiscountValue.percentage 0⟩]⟩ := by
  refine ⟨rfl, rfl, rfl, by decide⟩

/-- Claim C3, counterexample: the claim says a discounted selector with
an empty id set defaults to mirror the required selection, so the
required product `gid_X` would be discountable and discounted.  In the
code there is no mirroring: `gid_X` is required but not discountable,
and the result is `EMPTY_DISCOUNT`. -/
theorem required_not_discountable_counterexample :
    isRequired cfgMirror "gid_X" = true ∧
    isDiscountable cfgMirror "gid_X" = false ∧
    run ⟨some cfgMirror, cartProductX⟩ = EMPTY_DISCOUNT := by
  decide

/-- Claim C3, amended: there is no mirror defaulting.  When the
discounted selector has an explicit `product` or `collection` type with
an empty id set (even though the required selector has a non-empty id
set), no unit is discountable and the result is `NoDiscount`. -/
theorem discounted_empty_ids_yields_no_discount (input : RunInput)
    (cfg : Config) (hc : input.config = some cfg)
    (_hreqids : cfg.requiredTargetIds ≠ [])
    (ht : cfg.discountedTargetType = some "product" ∨
      cfg.discountedTargetType = some "collection")
    (hids : cfg.discountedTargetIds = []) :
    (∀ pid, isDiscountable cfg pid = false) ∧
      run input = EMPTY_DISCOUNT := by
  have hfalse : ∀ pid, isDiscountable cfg pid = false := fun pid =>
    isDiscountable_explicit_empty cfg pid ht hids
  refine ⟨hfalse, ?_⟩
  rw [run_config_some input cfg hc]
  exact runWithConfig_items_nil cfg input.cartLines
    (discountableItems_eq_nil cfg input.cartLines hfalse)

/-- Claim C3, witness for the amended theorem at the "buy X, discount
nothing" configuration. -/
theorem discounted_empty_ids_yields_no_discount_witness :
    (∀ pid, isDiscountable cfgMirror pid = false) ∧
      run ⟨some cfgMirror, cartProductX⟩ = EMPTY_DISCOUNT :=
  discounted_empty_ids_yields_no_discount ⟨some cfgMirror, cartProductX⟩
    cfgMirror rfl (by decide) (Or.inl rfl) rfl

/-- Claim C4 (confirmed): when the required and discounted selectors
target disjoint populations and the threshold gate passes with a
non-empty discountable set, the entire discountable set is discounted
up to the cap (`itemsToDiscountCount` is the full set size clamped only
by the cap) — no units are exempted. -/
theorem disjoint_populations_full_discount (input : RunInput)
    (cfg : Config) (hc : input.config = some cfg)
    (_hdisj : ∀ pid, isRequired cfg pid = true →
      isDiscountable cfg pid = false)
    (hgate : cfg.minProducts ≤ requiredProductCount cfg input.cartLines)
    (hne : discountableItems cfg input.cartLines ≠ []) :
    totalDiscountedQuantity (run input) =
      itemsToDiscountCount cfg.maxDiscounted
        (discountableItems cfg input.cartLines).length := by
  rw [run_config_some input cfg hc]
  exact totalDiscountedQuantity_gate_passed cfg input.cartLines hgate hne

/-- Claim C4, witness at the spec's scenario: product `gid_A` with
quantity 6, product `gid_B` with 3 units priced 8, threshold 6 — all 3
units of `gid_B` are discounted. -/
theorem disjoint_populations_full_discount_witness :
    totalDiscountedQuantity (run ⟨some cfgDisjoint, cartDisjoint⟩) =
      itemsToDiscountCount cfgDisjoint.maxDiscounted
        (discountableItems cfgDisjoint cartDisjoint).length := by
  apply disjoint_populations_full_discount ⟨some cfgDisjoint, cartDisjoint⟩
    cfgDisjoint rfl
  · intro pid h
    have hpid : pid = "gid_A" := by
      simp [cfgDisjoint, isRequired, selectorMatch, truthyStr] at h
      exact h
    subst hpid
    decide
  · decide
  · decide

/-- Claim C5 (confirmed): if the count of expanded cart units
classified as required is strictly below `minRequiredQuantity`, the
result is `NoDiscount` (a count equal to the threshold does not trigger
this gate, which tests strict `<`). -/
theorem threshold_gate_strict (input : RunInput) (cfg : Config)
    (hc : input.config = some cfg)
    (hlt : requiredProductCount cfg input.cartLines < cfg.minProducts) :
    run input = EMPTY_DISCOUNT := by
  rw [run_config_some input cfg hc]
  unfold runWithConfig
  by_cases h1 : input.cartLines.length = 0
  · rw [if_pos h1]
  · rw [if_neg h1, if_pos hlt]

/-- Claim C5, witness: threshold 2 with one required unit in the
cart. -/
theorem threshold_gate_strict_witness :
    run ⟨some { minProducts := 2 },
      [⟨"L1", true, some "P", 10, 1⟩]⟩ = EMPTY_DISCOUNT :=
  threshold_gate_strict
    ⟨some { minProducts := 2 }, [⟨"L1", true, some "P", 10, 1⟩]⟩
    { minProducts := 2 } rfl (by decide)

/-- Claim C6 (confirmed): an empty discountable set yields
`NoDiscount` regardless of the threshold, and a discounted selector of
explicit `product` kind with an empty id set classifies no unit as
discountable, so it always yields `NoDiscount`. -/
theorem empty_discountable_no_discount (input : RunInput) (cfg : Config)
    (hc : input.config = some cfg) :
    (discountableItems cfg input.cartLines = [] →
      run input = EMPTY_DISCOUNT) ∧
    (cfg.discountedTargetType = some "product" →
      cfg.discountedTargetIds = [] → run input = EMPTY_DISCOUNT) := by
  have hmain : discountableItems cfg input.cartLines = [] →
      run input = EMPTY_DISCOUNT := by
    intro h
    rw [run_config_some input cfg hc]
    exact runWithConfig_items_nil cfg input.cartLines h
  refine ⟨hmain, fun ht hids => hmain ?_⟩
  exact discountableItems_eq_nil cfg _
    (fun pid => isDiscountable_explicit_empty cfg pid (Or.inl ht) hids)

/-- Claim C6, witness: required threshold met (2 units, threshold 1 by
default) yet `NoDiscount` because the discounted selector is an
explicit empty `product` selector. -/
theorem empty_discountable_no_discount_witness :
    run ⟨some { discountedTargetType := some "product" },
      [⟨"L1", true, some "P", 10, 2⟩]⟩ = EMPTY_DISCOUNT :=
  (empty_discountable_no_discount
    ⟨some { discountedTargetType := some "product" },
      [⟨"L1", true, some "P", 10, 2⟩]⟩
    { discountedTargetType := some "product" } rfl).2 rfl rfl

/-- Claim C7 (confirmed): when `maxDiscountedUnits` is set to a
positive integer, the total discounted quantity across all pairs of the
result is at most that cap. -/
theorem cap_invariant (input : RunInput) (cfg : Config) (k : Nat)
    (hc : input.config = some cfg) (hk : cfg.maxDiscounted = some k)
    (hpos : 1 ≤ k) :
    totalDiscountedQuantity (run input) ≤ k := by
  rw [run_config_some input cfg hc]
  rcases runWithConfig_cases cfg input.cartLines with hE | hP
  · rw [hE]
    simp [totalDiscountedQuantity, EMPTY_DISCOUNT]
  · rw [hP]
    unfold totalDiscountedQuantity
    simp only [List.map_cons, List.map_nil, List.sum_cons, List.sum_nil,
      Nat.add_zero]
    rw [groupByLine_quantity_sum, chosenItems_length, hk]
    dsimp only [itemsToDiscountCount]
    rw [if_neg (by omega)]
    exact min_le_right _ _

/-- Claim C7, witness: cap 2 with 3 discountable units. -/
theorem cap_invariant_witness :
    totalDiscountedQuantity (run ⟨some { maxDiscounted := some 2 },
      [⟨"L1", true, some "P", 10, 3⟩]⟩) ≤ 2 :=
  cap_invariant
    ⟨some { maxDiscounted := some 2 }, [⟨"L1", true, some "P", 10, 3⟩]⟩
    { maxDiscounted := some 2 } 2 rfl rfl (by decide)

/-- Claim C8 (confirmed): in any discount of the result, no line id
appears twice among the targets, and the quantity assigned to each line
id equals the number of chosen (discounted) unit items of that line —
same-line units are merged into one pair with a summed quantity. -/
theorem grouping_invariant (input : RunInput) (cfg : Config)
    (hc : input.config = some cfg) (d : Discount)
    (hd : d ∈ (run input).discounts) :
    (d.targets.map (·.id)).Nodup ∧
      ∀ lid, targetsLineQty d.targets lid =
        (chosenItems cfg input.cartLines).countP
          (fun it => it.cartLineId == lid) := by
  rw [run_config_some input cfg hc] at hd
  rcases runWithConfig_cases cfg input.cartLines with hE | hP
  · rw [hE] at hd
    simp [EMPTY_DISCOUNT] at hd
  · rw [hP] at hd
    simp only [List.mem_singleton] at hd
    subst hd
    exact ⟨groupByLine_nodup_keys _, fun lid => groupByLine_lineQty _ lid⟩

/-- Claim C8, witness: a line of quantity 2 produces the single merged
target `(L1, 2)`. -/
theorem grouping_invariant_witness :
    (([⟨"L1", 2⟩] : List CartLineTarget).map (·.id)).Nodup ∧
      ∀ lid, targetsLineQty [⟨"L1", 2⟩] lid =
        (chosenItems {} [⟨"L1", true, some "P", 10, 2⟩]).countP
          (fun it => it.cartLineId == lid) :=
  grouping_invariant ⟨some {}, [⟨"L1", true, some "P", 10, 2⟩]⟩ {} rfl
    ⟨"Conditional Discount Applied", [⟨"L1", 2⟩], DiscountValue.percentage 0⟩
    (by decide)

/-- Claim C9 (code bug): the claim — matching the spec's error-handling
contract — says `run` never throws for any configuration string and
cart snapshot: an absent or unparseable configuration degrades to
`NoDiscount` and malformed cart lines are skipped silently.  The first
two conjuncts and the last conjunct show the parts the code does
honour: absent and unparseable metafield values return
`EMPTY_DISCOUNT`, and a line with a non-`ProductVariant` merchandise is
skipped while the rest of the cart is still evaluated.  But the `try`
of `run.js` spans only `JSON.parse` (lines 32-38): a metafield value
`"null"` is truthy and parses to JSON `null`, so the destructuring at
line 40 throws a `TypeError` (third conjunct), and an explicit
`"requiredTargetIds": null` (or `"discountedTargetIds": null`) with a
`product` target type makes the cart loop evaluate `null.length` at
line 97 (resp. 124) and throw (fourth and fifth conjuncts) — the
exception escapes the engine boundary, `none` modelling the throw. -/
theorem exception_escapes_engine :
    runRaw ParsedConfig.absent [⟨"L1", true, some "P", 10, 1⟩] =
      some EMPTY_DISCOUNT ∧
    runRaw ParsedConfig.unparseable [⟨"L1", true, some "P", 10, 1⟩] =
      some EMPTY_DISCOUNT ∧
    runRaw ParsedConfig.parsedNull [⟨"L1", true, some "P", 10, 1⟩] =
      none ∧
    runRaw (ParsedConfig.parsed
        { requiredTargetType := some "product", requiredTargetIds := none })
      [⟨"L1", true, some "P", 10, 1⟩] = none ∧
    runRaw (ParsedConfig.parsed
        { discountedTargetType := some "product",
          discountedTargetIds := none })
      [⟨"L1", true, some "P", 10, 1⟩] = none ∧
    runRaw (ParsedConfig.parsed {})
        [⟨"LB", false, none, 0, 1⟩, ⟨"L1", true, some "P", 10, 1⟩] =
      runRaw (ParsedConfig.parsed {}) [⟨"L1", true, some "P", 10, 1⟩] := by
  decide

/-- Claim C10 (confirmed): `maxDiscounted` explicitly set to `0` is
tested for truthiness (`run.js` line 162), so it behaves exactly as an
absent cap: the run result is identical to the one with no cap. -/
theorem zero_cap_no_cap (cfg : Config) (lines : List CartLine)
    (h : cfg.maxDiscounted = some 0) :
    run ⟨some cfg, lines⟩ =
      run ⟨some { cfg with maxDiscounted := none }, lines⟩ := by
  show runWithConfig cfg lines =
    runWithConfig { cfg with maxDiscounted := none } lines
  unfold runWithConfig chosenItems sortedItems itemsToDiscountCount
  rw [h]
  rfl

/-- Claim C10, witness: a cap of 0 on a 3-unit cart behaves as no
cap. -/
theorem zero_cap_no_cap_witness :
    run ⟨some ({ maxDiscounted := some 0 } : Config),
        [⟨"L1", true, some "P", 10, 3⟩]⟩ =
      run ⟨some ({ ({ maxDiscounted := some 0 } : Config) with
          maxDiscounted := none }),
        [⟨"L1", true, some "P", 10, 3⟩]⟩ :=
  zero_cap_no_cap { maxDiscounted := some 0 }
    [⟨"L1", true, some "P", 10, 3⟩] rfl

end ConditionalDiscount
